import Mathlib

/-!
Verification development for the pstate_update daemon (src/main.rs).

The program keeps per-CPU-core power tunables (energy-performance preference
and scaling governor, under a sysfs `cpufreq` hierarchy) in sync with the
`ActiveProfile` property published by power-profiles-daemon over D-Bus.

Shallow embedding conventions:
- Filesystem paths are lists of components (`FsPath := List String`), matching
  the component structure of Rust `PathBuf` (`join` appends a component,
  `with_file_name` replaces the last component, `file_name` is the last
  component).
- The writable filesystem is a record of `contents` (path to current file
  text) and `failing` (path to the I/O error, if any, that a write to that
  path raises); `fs::write` is modelled by `FileSystem.write`.
- Fallible Rust functions returning `Result` become functions into `Except`.
- The D-Bus collaborator is modelled by its observable values: the initial
  `active_profile` query outcome and the list of subsequent change
  notifications, each either a received string or a bus error.
- The `expect` abort in the directory scan is modelled as an explicit
  `panicked` outcome of the locator.
-/

set_option maxHeartbeats 1000000

namespace PstateUpdate

/-- Power profile exposed by power-profiles-daemon (PPD); enum PPDPowerProfile. -/
inductive PPDPowerProfile where
  | powerSaver
  | balanced
  | performance
  deriving DecidableEq, Repr

/-- Parse of PPDPowerProfile, from the FromStr impl (exact literal match). -/
def PPDPowerProfile.fromStr (input : String) : Except String PPDPowerProfile :=
  if input = "power-saver" then .ok .powerSaver
  else if input = "balanced" then .ok .balanced
  else if input = "performance" then .ok .performance
  else .error ("Could not parse " ++ input)

/-- Display of PPDPowerProfile, from the fmt::Display impl. -/
def PPDPowerProfile.toString : PPDPowerProfile → String
  | .powerSaver => "power-saver"
  | .balanced => "balanced"
  | .performance => "performance"

/-- Energy Performance Preference (EPP) exposed by the AMD P-State driver. -/
inductive EnergyPerformancePreference where
  | default
  | performance
  | balancePerformance
  | balancePower
  | power
  deriving DecidableEq, Repr

/-- Display of EnergyPerformancePreference, from the fmt::Display impl. -/
def EnergyPerformancePreference.toString : EnergyPerformancePreference → String
  | .default => "default"
  | .performance => "performance"
  | .balancePerformance => "balance_performance"
  | .balancePower => "balance_power"
  | .power => "power"

/-- Parse of EnergyPerformancePreference, from the FromStr impl. -/
def EnergyPerformancePreference.fromStr (input : String) :
    Except String EnergyPerformancePreference :=
  if input = "default" then .ok .default
  else if input = "performance" then .ok .performance
  else if input = "balance_performance" then .ok .balancePerformance
  else if input = "balance_power" then .ok .balancePower
  else if input = "power" then .ok .power
  else .error ("Could not parse " ++ input)

/-- Scaling governor exposed by the AMD P-State driver. -/
inductive ScalingGovernor where
  | powerSave
  | performance
  deriving DecidableEq, Repr

/-- Display of ScalingGovernor, from the fmt::Display impl. -/
def ScalingGovernor.toString : ScalingGovernor → String
  | .performance => "performance"
  | .powerSave => "powersave"

/-- Parse of ScalingGovernor, from the FromStr impl. -/
def ScalingGovernor.fromStr (input : String) : Except String ScalingGovernor :=
  if input = "powersave" then .ok .powerSave
  else if input = "performance" then .ok .performance
  else .error ("Could not parse " ++ input)

/-- Filesystem I/O error kinds relevant to sysfs access. -/
inductive IOError where
  | permissionDenied
  | notFound
  | other (msg : String)
  deriving DecidableEq, Repr

/-- Bus-level error, from zbus::Error; the program itself only constructs the
Failure variant (for profile parse errors). -/
inductive ZbusError where
  | failure (msg : String)
  | connection (msg : String)
  deriving DecidableEq, Repr

/-- A filesystem path as its list of components, matching Rust PathBuf. -/
abbrev FsPath := List String

/-- The writable filesystem: contents maps a path to its current file text,
failing maps a path to the error a write to it raises (none means writes to
that path succeed). -/
structure FileSystem where
  contents : FsPath → Option String
  failing : FsPath → Option IOError

/-- Embedding of fs::write of a whole string to a path: it fails exactly on
the paths the environment marks failing, otherwise replaces the contents. -/
def FileSystem.write (fs : FileSystem) (p : FsPath) (value : String) :
    Except IOError FileSystem :=
  match fs.failing p with
  | some e => .error e
  | none =>
      .ok { fs with contents := fun q => if q = p then some value else fs.contents q }

/-- Record of one attempted file write during a fan-out: the target path, the
value written, and whether the write succeeded. -/
structure WriteAttempt where
  path : FsPath
  value : String
  succeeded : Bool
  deriving DecidableEq

/-- EPPConfig: the configured EPP for each of the three power profiles. -/
structure EPPConfig where
  power_saver : EnergyPerformancePreference
  balanced : EnergyPerformancePreference
  performance : EnergyPerformancePreference

/-- GovernorConfig: the configured governor for each of the three profiles. -/
structure GovernorConfig where
  power_saver : ScalingGovernor
  balanced : ScalingGovernor
  performance : ScalingGovernor

/-- Config: the whole configuration file contents. -/
structure Config where
  epp : EPPConfig
  scaling_governor : GovernorConfig

/-- EPPController: the controller owning the discovered file sets and the
profile-to-tunable configuration. -/
structure EPPController where
  epp_core_files : List FsPath
  epp_config : EPPConfig
  governor_core_files : List FsPath
  governor_config : GovernorConfig

/-- Select the appropriate EPP for a power profile, from desired_epp. -/
def EPPController.desired_epp (ctrl : EPPController) (profile : PPDPowerProfile) :
    EnergyPerformancePreference :=
  match profile with
  | .performance => ctrl.epp_config.performance
  | .balanced => ctrl.epp_config.balanced
  | .powerSaver => ctrl.epp_config.power_saver

/-- Select the appropriate scaling governor for a power profile, from
desired_governor. -/
def EPPController.desired_governor (ctrl : EPPController) (profile : PPDPowerProfile) :
    ScalingGovernor :=
  match profile with
  | .performance => ctrl.governor_config.performance
  | .balanced => ctrl.governor_config.balanced
  | .powerSaver => ctrl.governor_config.power_saver

/-- Common body of write_epp_to_all_cores and write_governor_to_all_cores: walk
the file list in order, attempt one whole-file write of the token per file, and
on failure only log (the error value is dropped) and continue with the next
file. Returns the final filesystem and the trace of attempted writes in order. -/
def writeTokenToAllCores (token : String) (files : List FsPath) (fs : FileSystem) :
    FileSystem × List WriteAttempt :=
  match files with
  | [] => (fs, [])
  | f :: rest =>
      match fs.write f token with
      | .ok fs2 =>
          let r := writeTokenToAllCores token rest fs2
          (r.1, ⟨f, token, true⟩ :: r.2)
      | .error _ =>
          let r := writeTokenToAllCores token rest fs
          (r.1, ⟨f, token, false⟩ :: r.2)

/-- Embedding of write_epp_to_all_cores: fan the EPP token out over every
discovered EPP file, isolating per-file failures. -/
def EPPController.write_epp_to_all_cores (ctrl : EPPController)
    (epp : EnergyPerformancePreference) (fs : FileSystem) :
    FileSystem × List WriteAttempt :=
  writeTokenToAllCores epp.toString ctrl.epp_core_files fs

/-- Embedding of write_governor_to_all_cores: fan the governor token out over
every discovered governor file, isolating per-file failures. -/
def EPPController.write_governor_to_all_cores (ctrl : EPPController)
    (gov : ScalingGovernor) (fs : FileSystem) : FileSystem × List WriteAttempt :=
  writeTokenToAllCores gov.toString ctrl.governor_core_files fs

/-- Embedding of process_active_profile_changed: parse the received value; on
parse failure return Err(zbus::Error::Failure(e)) before any write; on success
write the governor to all governor files and then the EPP to all EPP files.
Returns the event result, the filesystem after the event, and the trace of
write attempts the event issued. -/
def EPPController.process_active_profile_changed (ctrl : EPPController)
    (value : String) (fs : FileSystem) :
    Except ZbusError Unit × FileSystem × List WriteAttempt :=
  match PPDPowerProfile.fromStr value with
  | .error e => (.error (.failure e), fs, [])
  | .ok profile =>
      let g := ctrl.write_governor_to_all_cores (ctrl.desired_governor profile) fs
      let ep := ctrl.write_epp_to_all_cores (ctrl.desired_epp profile) g.1
      (.ok (), ep.1, g.2 ++ ep.2)

/-- Embedding of the steady-state for-loop of run: each notification either
fails at change.get (a bus error, propagated, ending the session) or carries a
value that is processed with its error merely logged; the loop ends with Ok
when the notification sequence is exhausted. -/
def runLoop (ctrl : EPPController) (changes : List (Except ZbusError String))
    (fs : FileSystem) : Except ZbusError FileSystem :=
  match changes with
  | [] => .ok fs
  | .error e :: _ => .error e
  | .ok val :: rest =>
      runLoop ctrl rest (ctrl.process_active_profile_changed val fs).2.1

/-- Embedding of run: the initial active_profile query failure propagates; the
initial process_active_profile_changed failure propagates (fail early); then
the steady-state loop runs over the subsequent notifications. -/
def EPPController.run (ctrl : EPPController) (initial : Except ZbusError String)
    (changes : List (Except ZbusError String)) (fs : FileSystem) :
    Except ZbusError FileSystem :=
  match initial with
  | .error e => .error e
  | .ok active =>
      match ctrl.process_active_profile_changed active fs with
      | (.error e, _, _) => .error e
      | (.ok _, fs2, _) => runLoop ctrl changes fs2

/-- A directory entry as observed by the locator: its path and whether its
file name converts to valid text (OsStr::to_str succeeds). -/
structure DirEntry where
  path : FsPath
  nameValid : Bool
  deriving DecidableEq

/-- Outcome of the directory scan: either the collected EPP paths, or the
abort raised by the expect on an unreadable entry. -/
inductive LocatorResult where
  | panicked (msg : String)
  | found (paths : List FsPath)
  deriving DecidableEq

/-- Per-entry body of the scan loop in find_cpu_core_epp_paths, in source
order: take the file name (continue when absent), require valid text (continue
otherwise), require the policy name prefix, then require the EPP file to exist
inside the entry (continue with a warning otherwise). -/
def scanEntryKept (fsExists : FsPath → Bool) (p : DirEntry) : Option FsPath :=
  match p.path.getLast? with
  | none => none
  | some dirname =>
      if p.nameValid = false then none
      else if dirname.startsWith "policy" = false then none
      else
        if fsExists (p.path ++ ["energy_performance_preference"]) = false then none
        else some (p.path ++ ["energy_performance_preference"])

/-- The scan loop of find_cpu_core_epp_paths over the read_dir entries: an
entry that is itself an Err hits the expect and panics, aborting the scan;
an Ok entry contributes its EPP path when the per-entry body keeps it. -/
def scanEntries (entries : List (Except IOError DirEntry)) (fsExists : FsPath → Bool) :
    LocatorResult :=
  match entries with
  | [] => .found []
  | .error _ :: _ => .panicked "any path from read_dir should be Ok"
  | .ok p :: rest =>
      match scanEntries rest fsExists with
      | .panicked m => .panicked m
      | .found ps =>
          match scanEntryKept fsExists p with
          | some q => .found (q :: ps)
          | none => .found ps

/-- Embedding of find_cpu_core_epp_paths: failure to read the base directory
itself propagates as the function's error; otherwise the scan loop runs. -/
def find_cpu_core_epp_paths (readDir : Except IOError (List (Except IOError DirEntry)))
    (fsExists : FsPath → Bool) : Except IOError LocatorResult :=
  match readDir with
  | .error e => .error e
  | .ok entries => .ok (scanEntries entries fsExists)

/-- Modelled from the spec sentence for the locator: an entry is kept exactly
when its name is valid text beginning with the literal prefix policy and the
file energy_performance_preference exists inside it, the kept path being that
EPP file path. Stated as the specification-side per-entry rule to compare with
scanEntryKept. -/
def locatorSpecKept (fsExists : FsPath → Bool) (entry : DirEntry) : Option FsPath :=
  match entry.path.getLast? with
  | some name =>
      if entry.nameValid && name.startsWith "policy" &&
          fsExists (entry.path ++ ["energy_performance_preference"])
      then some (entry.path ++ ["energy_performance_preference"])
      else none
  | none => none

/-- Embedding of generate_cpu_core_gorvernor_paths (name as in the source):
derive each governor path from its EPP path by replacing the file name with
scaling_governor, skipping (with a warning) those that do not exist. -/
def generate_cpu_core_gorvernor_paths (epp_paths : List FsPath)
    (fsExists : FsPath → Bool) : List FsPath :=
  match epp_paths with
  | [] => []
  | epp :: rest =>
      let p := epp.dropLast ++ ["scaling_governor"]
      if fsExists p = false then generate_cpu_core_gorvernor_paths rest fsExists
      else p :: generate_cpu_core_gorvernor_paths rest fsExists

/-- Observable state of the supervisor after consuming a list of session
outcomes: either the process exited with a code, or it is still running (about
to start another session). -/
inductive SupervisorOutcome where
  | exited (code : Nat)
  | running
  deriving DecidableEq

/-- Embedding of the outer loop of main over successive controller session
outcomes: a clean session end is logged and the loop continues with a fresh
session; a session error exits the process with status 1. -/
def supervisorLoop (outcomes : List (Except ZbusError Unit)) : SupervisorOutcome :=
  match outcomes with
  | [] => .running
  | .ok _ :: rest => supervisorLoop rest
  | .error _ :: _ => .exited 1

/-- Outcome of the startup sequence of main before the supervisor loop. -/
inductive StartupOutcome where
  | exit1
  | proceed (ctrl : EPPController)

/-- Embedding of the startup sequence of main: locator failure exits; an empty
EPP list exits; governor paths are derived; then the source re-tests
epp_files.is_empty() (not the governor list) for the second check; config read
failure exits; otherwise the controller is constructed. -/
def mainStartup (locate : Except IOError (List FsPath)) (fsExists : FsPath → Bool)
    (readCfg : Except IOError Config) : StartupOutcome :=
  match locate with
  | .error _ => .exit1
  | .ok epp_files =>
      if epp_files.isEmpty then .exit1
      else
        let governor_files := generate_cpu_core_gorvernor_paths epp_files fsExists
        if epp_files.isEmpty then .exit1
        else
          match readCfg with
          | .error _ => .exit1
          | .ok config =>
              .proceed ⟨epp_files, config.epp, governor_files, config.scaling_governor⟩

/-- A filesystem with no pre-existing contents and no failing files. -/
def fsClean : FileSystem := ⟨fun _ => none, fun _ => none⟩

/-- Scenario path of the policy0 EPP file. -/
def eppPath0 : FsPath := ["policy0", "energy_performance_preference"]

/-- Scenario path of the policy0 governor file. -/
def govPath0 : FsPath := ["policy0", "scaling_governor"]

/-- Scenario path of the policy1 EPP file. -/
def eppPath1 : FsPath := ["policy1", "energy_performance_preference"]

/-- Scenario path of the policy2 EPP file. -/
def eppPath2 : FsPath := ["policy2", "energy_performance_preference"]

/-- Scenario configuration, mapping performance to performance/performance as
in the end-to-end scenario of the spec. -/
def scenarioConfig : Config :=
  ⟨⟨.power, .balancePower, .performance⟩, ⟨.powerSave, .powerSave, .performance⟩⟩

/-- Scenario controller over the single policy0 core. -/
def scenarioCtrl : EPPController :=
  ⟨[eppPath0], scenarioConfig.epp, [govPath0], scenarioConfig.scaling_governor⟩

/-- Scenario controller with three EPP files for the fan-out isolation case. -/
def isolationCtrl : EPPController :=
  ⟨[eppPath0, eppPath1, eppPath2], scenarioConfig.epp, [govPath0],
    scenarioConfig.scaling_governor⟩

/-- Scenario filesystem where only the policy1 EPP file fails on write. -/
def fsSecondFailing : FileSystem :=
  ⟨fun _ => none, fun p => if p = eppPath1 then some .permissionDenied else none⟩

/-- Scenario existence oracle for the locator: only the policy0 and other
directories contain an EPP file. -/
def scenarioExists : FsPath → Bool := fun p =>
  decide (p = ["cpufreq", "policy0", "energy_performance_preference"]) ||
    decide (p = ["cpufreq", "other", "energy_performance_preference"])

/-- Scenario directory listing of the locator example: policy0 with an EPP
file, policy1 without one, and a non-policy entry with one. -/
def scenarioEntries : List DirEntry :=
  [⟨["cpufreq", "policy0"], true⟩, ⟨["cpufreq", "policy1"], true⟩,
    ⟨["cpufreq", "other"], true⟩]

/-- Scenario directory listing whose first entry is unreadable. -/
def unreadableEntrySequence : List (Except IOError DirEntry) :=
  [.error .permissionDenied, .ok ⟨["cpufreq", "policy0"], true⟩]

/-- The fan-out leaves the failing map of the filesystem unchanged. -/
theorem writeTokenToAllCores_failing (token : String) (files : List FsPath)
    (fs : FileSystem) :
    (writeTokenToAllCores token files fs).1.failing = fs.failing := by
  induction files generalizing fs with
  | nil => rfl
  | cons f rest ih =>
      unfold writeTokenToAllCores
      cases h : fs.write f token with
      | ok fs2 =>
          have hfail : fs2.failing = fs.failing := by
            unfold FileSystem.write at h
            cases hf : fs.failing f with
            | some e => rw [hf] at h; cases h
            | none => rw [hf] at h; cases h; rfl
          simpa [hfail] using ih fs2
      | error e => simpa using ih fs

/-- The trace of a fan-out is exactly one attempt per file in list order, each
carrying the token, succeeding precisely when the file is not failing. -/
theorem writeTokenToAllCores_trace (token : String) (files : List FsPath)
    (fs : FileSystem) :
    (writeTokenToAllCores token files fs).2 =
      files.map (fun f => ⟨f, token, (fs.failing f).isNone⟩) := by
  induction files generalizing fs with
  | nil => rfl
  | cons f rest ih =>
      unfold writeTokenToAllCores
      cases hf : fs.failing f with
      | some e =>
          simp only [FileSystem.write, hf, List.map_cons, Option.isNone_some]
          exact congrArg _ (ih fs)
      | none =>
          simp only [FileSystem.write, hf, List.map_cons, Option.isNone_none]
          refine congrArg _ ?_
          exact ih _

/-- A file whose contents already hold the token keeps the token through a
fan-out of that same token. -/
theorem writeTokenToAllCores_preserves (token : String) (files : List FsPath)
    (fs : FileSystem) (f : FsPath) (h : fs.contents f = some token) :
    (writeTokenToAllCores token files fs).1.contents f = some token := by
  induction files generalizing fs with
  | nil => exact h
  | cons g rest ih =>
      unfold writeTokenToAllCores
      cases hw : fs.write g token with
      | ok fs2 =>
          refine ih fs2 ?_
          unfold FileSystem.write at hw
          cases hg : fs.failing g with
          | some e => rw [hg] at hw; cases hw
          | none =>
              rw [hg] at hw
              cases hw
              by_cases hfg : f = g <;> simp [hfg, h]
      | error e => exact ih fs h

/-- Every non-failing file in the list ends a fan-out holding the token. -/
theorem writeTokenToAllCores_contents (token : String) (files : List FsPath)
    (fs : FileSystem) (f : FsPath) (hmem : f ∈ files) (hok : fs.failing f = none) :
    (writeTokenToAllCores token files fs).1.contents f = some token := by
  induction files generalizing fs with
  | nil => cases hmem
  | cons g rest ih =>
      unfold writeTokenToAllCores
      cases hw : fs.write g token with
      | ok fs2 =>
          have hfail : fs2.failing = fs.failing := by
            unfold FileSystem.write at hw
            cases hg : fs.failing g with
            | some e => rw [hg] at hw; cases hw
            | none => rw [hg] at hw; cases hw; rfl
          rcases List.mem_cons.mp hmem with hfg | hrest
          · subst hfg
            refine writeTokenToAllCores_preserves token rest fs2 f ?_
            unfold FileSystem.write at hw
            rw [hok] at hw
            cases hw
            simp
          · exact ih fs2 hrest (by rw [hfail]; exact hok)
      | error e =>
          rcases List.mem_cons.mp hmem with hfg | hrest
          · subst hfg
            unfold FileSystem.write at hw
            rw [hok] at hw
            cases hw
          · exact ih fs hrest hok

/-- Processing an unparseable value returns the Failure error, the unchanged
filesystem and an empty write trace. -/
theorem process_parse_error (ctrl : EPPController) (v e : String) (fs : FileSystem)
    (h : PPDPowerProfile.fromStr v = .error e) :
    ctrl.process_active_profile_changed v fs = (.error (.failure e), fs, []) := by
  unfold EPPController.process_active_profile_changed
  rw [h]

/-- The per-entry body of the scan loop agrees with the specification-side
per-entry rule. -/
theorem scanEntryKept_eq_spec (fsExists : FsPath → Bool) (d : DirEntry) :
    scanEntryKept fsExists d = locatorSpecKept fsExists d := by
  unfold scanEntryKept locatorSpecKept
  cases d.path.getLast? with
  | none => rfl
  | some name =>
      cases hv : d.nameValid <;>
        cases hs : name.startsWith "policy" <;>
          cases he : fsExists (d.path ++ ["energy_performance_preference"]) <;>
            simp [hv, hs, he]

/-- An entry with a missing or invalid name, or whose EPP file is absent, is
dropped by the per-entry body of the scan loop. -/
theorem scanEntryKept_none (fsExists : FsPath → Bool) (d : DirEntry)
    (h : d.path.getLast? = none ∨ d.nameValid = false ∨
      fsExists (d.path ++ ["energy_performance_preference"]) = false) :
    scanEntryKept fsExists d = none := by
  unfold scanEntryKept
  rcases h with h | h | h
  · rw [h]
  · cases hg : d.path.getLast? with
    | none => rfl
    | some name => simp [h]
  · cases hg : d.path.getLast? with
    | none => rfl
    | some name =>
        cases hv : d.nameValid <;> cases hs : name.startsWith "policy" <;>
          simp [hv, hs, h]

/-- Claim C4: for every variant p of PPDPowerProfile, EnergyPerformancePreference
and ScalingGovernor, parsing the canonical kernel token printed for p yields p
again: fromStr (toString p) = .ok p. -/
theorem c4_parse_tostring_roundtrip :
    (∀ p : PPDPowerProfile, PPDPowerProfile.fromStr p.toString = .ok p) ∧
    (∀ e : EnergyPerformancePreference,
      EnergyPerformancePreference.fromStr e.toString = .ok e) ∧
    (∀ g : ScalingGovernor, ScalingGovernor.fromStr g.toString = .ok g) := by
  refine ⟨?_, ?_, ?_⟩
  · intro p
    cases p <;> rfl
  · intro e
    cases e <;> rfl
  · intro g
    cases g <;> rfl

/-- Claim C5: any string that is not one of an enum's exact canonical tokens is
rejected by all three parsers with an error; parsing never falls back to a
default variant. -/
theorem c5_parse_rejects_unknown (s : String) :
    (s ≠ "power-saver" → s ≠ "balanced" → s ≠ "performance" →
      PPDPowerProfile.fromStr s = .error ("Could not parse " ++ s)) ∧
    (s ≠ "default" → s ≠ "performance" → s ≠ "balance_performance" →
      s ≠ "balance_power" → s ≠ "power" →
      EnergyPerformancePreference.fromStr s = .error ("Could not parse " ++ s)) ∧
    (s ≠ "powersave" → s ≠ "performance" →
      ScalingGovernor.fromStr s = .error ("Could not parse " ++ s)) := by
  refine ⟨?_, ?_, ?_⟩
  · intro h1 h2 h3
    simp [PPDPowerProfile.fromStr, h1, h2, h3]
  · intro h1 h2 h3 h4 h5
    simp [EnergyPerformancePreference.fromStr, h1, h2, h3, h4, h5]
  · intro h1 h2
    simp [ScalingGovernor.fromStr, h1, h2]

/-- Witness for C5 at the spec's concrete input "unknown-value". -/
theorem c5_parse_rejects_unknown_witness :
    PPDPowerProfile.fromStr "unknown-value" =
        .error ("Could not parse " ++ "unknown-value") ∧
    EnergyPerformancePreference.fromStr "unknown-value" =
        .error ("Could not parse " ++ "unknown-value") ∧
    ScalingGovernor.fromStr "unknown-value" =
        .error ("Could not parse " ++ "unknown-value") := by
  obtain ⟨h1, h2, h3⟩ := c5_parse_rejects_unknown "unknown-value"
  exact ⟨h1 (by decide) (by decide) (by decide),
    h2 (by decide) (by decide) (by decide) (by decide) (by decide),
    h3 (by decide) (by decide)⟩

/-- Claim C1: for every input string parsing to a PowerProfile, processing the
event looks up the configured governor and EPP for that profile (a total
lookup) and issues one write of the governor's canonical token per discovered
governor file followed by one write of the EPP's canonical token per discovered
EPP file, the governor fan-out strictly before the EPP fan-out. -/
theorem c1_event_fanout (ctrl : EPPController) (v : String) (p : PPDPowerProfile)
    (fs : FileSystem) (h : PPDPowerProfile.fromStr v = .ok p) :
    (ctrl.process_active_profile_changed v fs).1 = .ok () ∧
    (ctrl.process_active_profile_changed v fs).2.2 =
      ctrl.governor_core_files.map
        (fun f => ⟨f, (ctrl.desired_governor p).toString, (fs.failing f).isNone⟩) ++
      ctrl.epp_core_files.map
        (fun f => ⟨f, (ctrl.desired_epp p).toString, (fs.failing f).isNone⟩) := by
  unfold EPPController.process_active_profile_changed
  unfold EPPController.write_governor_to_all_cores EPPController.write_epp_to_all_cores
  rw [h]
  refine ⟨rfl, ?_⟩
  simp only [writeTokenToAllCores_trace, writeTokenToAllCores_failing]

/-- Witness for C1 on the spec's end-to-end scenario: config maps performance
to governor performance and EPP performance, the incoming value is the string
performance, and both policy0 files end up holding the literal token. -/
theorem c1_event_fanout_witness :
    PPDPowerProfile.fromStr "performance" = .ok .performance ∧
    ((scenarioCtrl.process_active_profile_changed "performance" fsClean).1 = .ok () ∧
      (scenarioCtrl.process_active_profile_changed "performance" fsClean).2.2 =
        scenarioCtrl.governor_core_files.map
          (fun f => ⟨f, (scenarioCtrl.desired_governor .performance).toString,
            (fsClean.failing f).isNone⟩) ++
        scenarioCtrl.epp_core_files.map
          (fun f => ⟨f, (scenarioCtrl.desired_epp .performance).toString,
            (fsClean.failing f).isNone⟩)) ∧
    (scenarioCtrl.process_active_profile_changed "performance" fsClean).2.1.contents
        eppPath0 = some "performance" ∧
    (scenarioCtrl.process_active_profile_changed "performance" fsClean).2.1.contents
        govPath0 = some "performance" :=
  ⟨rfl, c1_event_fanout scenarioCtrl "performance" .performance fsClean rfl,
    by decide, by decide⟩

/-- Claim C2: during an event's fan-out, a failing file does not stop writes to
the remaining files nor abort the event: whatever subset of files the
filesystem makes fail, every non-failing governor and EPP file still receives a
successful write of its token, every non-failing EPP file ends holding the EPP
token, and the event reports success once both fan-outs complete. -/
theorem c2_fanout_isolation (ctrl : EPPController) (fs : FileSystem) (v : String)
    (p : PPDPowerProfile) (h : PPDPowerProfile.fromStr v = .ok p) :
    (ctrl.process_active_profile_changed v fs).1 = .ok () ∧
    (∀ f ∈ ctrl.governor_core_files, fs.failing f = none →
      WriteAttempt.mk f (ctrl.desired_governor p).toString true ∈
        (ctrl.process_active_profile_changed v fs).2.2) ∧
    (∀ f ∈ ctrl.epp_core_files, fs.failing f = none →
      WriteAttempt.mk f (ctrl.desired_epp p).toString true ∈
        (ctrl.process_active_profile_changed v fs).2.2 ∧
      (ctrl.process_active_profile_changed v fs).2.1.contents f =
        some (ctrl.desired_epp p).toString) := by
  unfold EPPController.process_active_profile_changed
  unfold EPPController.write_governor_to_all_cores EPPController.write_epp_to_all_cores
  rw [h]
  refine ⟨rfl, ?_, ?_⟩
  · intro f hf hok
    simp only [writeTokenToAllCores_trace, writeTokenToAllCores_failing,
      List.mem_append, List.mem_map]
    exact Or.inl ⟨f, hf, by rw [hok]; rfl⟩
  · intro f hf hok
    constructor
    · simp only [writeTokenToAllCores_trace, writeTokenToAllCores_failing,
        List.mem_append, List.mem_map]
      exact Or.inr ⟨f, hf, by rw [hok]; rfl⟩
    · refine writeTokenToAllCores_contents _ _ _ _ hf ?_
      rw [writeTokenToAllCores_failing]
      exact hok

/-- Witness for C2 on the spec's isolation scenario: three EPP files with the
second one failing with a permission error; the first and third are still
written successfully and the event reports success. -/
theorem c2_fanout_isolation_witness :
    PPDPowerProfile.fromStr "performance" = .ok .performance ∧
    eppPath0 ∈ isolationCtrl.epp_core_files ∧
    eppPath2 ∈ isolationCtrl.epp_core_files ∧
    fsSecondFailing.failing eppPath0 = none ∧
    fsSecondFailing.failing eppPath2 = none ∧
    (isolationCtrl.process_active_profile_changed "performance" fsSecondFailing).1 =
      .ok () ∧
    (WriteAttempt.mk eppPath0 "performance" true ∈
      (isolationCtrl.process_active_profile_changed "performance" fsSecondFailing).2.2 ∧
     (isolationCtrl.process_active_profile_changed "performance"
        fsSecondFailing).2.1.contents eppPath0 = some "performance") ∧
    (WriteAttempt.mk eppPath2 "performance" true ∈
      (isolationCtrl.process_active_profile_changed "performance" fsSecondFailing).2.2 ∧
     (isolationCtrl.process_active_profile_changed "performance"
        fsSecondFailing).2.1.contents eppPath2 = some "performance") :=
  ⟨rfl, by decide, by decide, rfl, rfl,
    (c2_fanout_isolation isolationCtrl fsSecondFailing "performance" .performance rfl).1,
    (c2_fanout_isolation isolationCtrl fsSecondFailing "performance" .performance
      rfl).2.2 eppPath0 (by decide) rfl,
    (c2_fanout_isolation isolationCtrl fsSecondFailing "performance" .performance
      rfl).2.2 eppPath2 (by decide) rfl⟩

/-- Claim C9: an input string that does not parse as a PowerProfile makes the
event processing return an error with zero file writes: the filesystem is
returned unchanged and the write trace is empty. -/
theorem c9_parse_error_no_writes (ctrl : EPPController) (v : String) (e : String)
    (fs : FileSystem) (h : PPDPowerProfile.fromStr v = .error e) :
    ctrl.process_active_profile_changed v fs = (.error (.failure e), fs, []) := by
  unfold EPPController.process_active_profile_changed
  rw [h]

/-- Witness for C9 at the concrete unparseable input bogus. -/
theorem c9_parse_error_no_writes_witness :
    PPDPowerProfile.fromStr "bogus" = .error ("Could not parse " ++ "bogus") ∧
    scenarioCtrl.process_active_profile_changed "bogus" fsClean =
      (.error (.failure ("Could not parse " ++ "bogus")), fsClean, []) :=
  ⟨rfl, c9_parse_error_no_writes scenarioCtrl "bogus"
    ("Could not parse " ++ "bogus") fsClean rfl⟩

/-- Claim C3: a profile parse error terminates the session exactly when it
occurs on the initial synchronous query: an unparseable initial value makes run
return the error; an unparseable value in the steady-state loop is only logged
and the loop continues with the remaining notifications; the loop ends Ok when
the notification sequence is exhausted and ends with the bus error when a
notification itself fails. -/
theorem c3_initial_parse_fatal_steady_tolerant :
    (∀ (ctrl : EPPController) (s e : String)
        (changes : List (Except ZbusError String)) (fs : FileSystem),
      PPDPowerProfile.fromStr s = .error e →
      ctrl.run (.ok s) changes fs = .error (.failure e)) ∧
    (∀ (ctrl : EPPController) (v : String)
        (rest : List (Except ZbusError String)) (fs : FileSystem),
      ∃ fs2, runLoop ctrl (.ok v :: rest) fs = runLoop ctrl rest fs2) ∧
    (∀ (ctrl : EPPController) (fs : FileSystem), runLoop ctrl [] fs = .ok fs) ∧
    (∀ (ctrl : EPPController) (e : ZbusError)
        (rest : List (Except ZbusError String)) (fs : FileSystem),
      runLoop ctrl (.error e :: rest) fs = .error e) := by
  refine ⟨?_, ?_, ?_, ?_⟩
  · intro ctrl s e changes fs h
    simp only [EPPController.run]
    rw [process_parse_error ctrl s e fs h]
  · intro ctrl v rest fs
    exact ⟨(ctrl.process_active_profile_changed v fs).2.1, rfl⟩
  · intro ctrl fs
    rfl
  · intro ctrl e rest fs
    rfl

/-- Witness for C3: the initial value bogus is fatal for the session while a
steady-state bogus value lets the loop continue to the remaining events, the
loop ends Ok on exhaustion and with the bus error on a failing notification. -/
theorem c3_initial_parse_fatal_steady_tolerant_witness :
    PPDPowerProfile.fromStr "bogus" = .error ("Could not parse " ++ "bogus") ∧
    scenarioCtrl.run (.ok "bogus") [.ok "balanced"] fsClean =
      .error (.failure ("Could not parse " ++ "bogus")) ∧
    (∃ fs2, runLoop scenarioCtrl (.ok "bogus" :: [.ok "performance"]) fsClean =
      runLoop scenarioCtrl [.ok "performance"] fs2) ∧
    runLoop scenarioCtrl [] fsClean = .ok fsClean ∧
    runLoop scenarioCtrl [.error (.connection "disconnected")] fsClean =
      .error (.connection "disconnected") :=
  ⟨rfl,
    c3_initial_parse_fatal_steady_tolerant.1 scenarioCtrl "bogus"
      ("Could not parse " ++ "bogus") [.ok "balanced"] fsClean rfl,
    c3_initial_parse_fatal_steady_tolerant.2.1 scenarioCtrl "bogus"
      [.ok "performance"] fsClean,
    c3_initial_parse_fatal_steady_tolerant.2.2.1 scenarioCtrl fsClean,
    c3_initial_parse_fatal_steady_tolerant.2.2.2 scenarioCtrl
      (.connection "disconnected") [.ok "performance"] fsClean⟩

/-- Claim C6: over readable entries, the locator returns exactly the EPP paths
of entries whose (valid-text) name begins with the literal prefix policy and
which contain an existing energy_performance_preference file; every other
entry contributes no path. -/
theorem c6_locator_exact_filter (ds : List DirEntry) (fsExists : FsPath → Bool) :
    scanEntries (ds.map Except.ok) fsExists =
      .found (ds.filterMap (locatorSpecKept fsExists)) := by
  induction ds with
  | nil => rfl
  | cons d rest ih =>
      unfold scanEntries
      simp only [List.map_cons, List.filterMap_cons]
      rw [ih, scanEntryKept_eq_spec]
      cases locatorSpecKept fsExists d <;> rfl

/-- Claim C7 counterexample: with the base directory readable but its first
entry unreadable, the scan does not skip the entry and proceed (which would
yield the surviving policy0 path); it hits the expect and aborts. -/
theorem c7_unreadable_entry_panics_counterexample :
    scanEntries unreadableEntrySequence scenarioExists =
      .panicked "any path from read_dir should be Ok" ∧
    scanEntries unreadableEntrySequence scenarioExists ≠
      .found [["cpufreq", "policy0", "energy_performance_preference"]] := by
  constructor
  · rfl
  · decide

/-- Claim C7 as amended: an entry with a missing or invalid-text name or whose
EPP file is absent is skipped and the scan proceeds over the remaining
entries, but an entry that cannot be read is not skipped: the expect call
panics and aborts the scan. -/
theorem c7_amended_skip_invalid_panic_unreadable :
    (∀ (d : DirEntry) (rest : List (Except IOError DirEntry))
        (fsExists : FsPath → Bool),
      (d.path.getLast? = none ∨ d.nameValid = false ∨
        fsExists (d.path ++ ["energy_performance_preference"]) = false) →
      scanEntries (.ok d :: rest) fsExists = scanEntries rest fsExists) ∧
    (∀ (e : IOError) (rest : List (Except IOError DirEntry))
        (fsExists : FsPath → Bool),
      scanEntries (.error e :: rest) fsExists =
        .panicked "any path from read_dir should be Ok") := by
  constructor
  · intro d rest fsExists h
    simp only [scanEntries]
    rw [scanEntryKept_none fsExists d h]
    cases scanEntries rest fsExists <;> rfl
  · intro e rest fsExists
    rfl

/-- Witness for the amended C7: the policy1 entry (no EPP file) is skipped and
the scan proceeds, while an unreadable entry panics. -/
theorem c7_amended_skip_invalid_panic_unreadable_witness :
    scenarioExists (["cpufreq", "policy1"] ++ ["energy_performance_preference"]) =
      false ∧
    scanEntries (.ok ⟨["cpufreq", "policy1"], true⟩ ::
        [.ok ⟨["cpufreq", "policy0"], true⟩]) scenarioExists =
      scanEntries [.ok ⟨["cpufreq", "policy0"], true⟩] scenarioExists ∧
    scanEntries [.error .permissionDenied] scenarioExists =
      .panicked "any path from read_dir should be Ok" :=
  ⟨by decide,
    c7_amended_skip_invalid_panic_unreadable.1 ⟨["cpufreq", "policy1"], true⟩
      [.ok ⟨["cpufreq", "policy0"], true⟩] scenarioExists
      (Or.inr (Or.inr (by decide))),
    c7_amended_skip_invalid_panic_unreadable.2 .permissionDenied [] scenarioExists⟩

/-- Claim C8: the supervisor loop starts a new session after a session that
ends without error (no process termination), and terminates the process with a
non-zero exit status after a session that ends with an error. -/
theorem c8_supervisor_respawn_or_exit :
    (∀ rest : List (Except ZbusError Unit),
      supervisorLoop (.ok () :: rest) = supervisorLoop rest) ∧
    supervisorLoop [] = .running ∧
    (∀ (e : ZbusError) (rest : List (Except ZbusError Unit)),
      ∃ c, supervisorLoop (.error e :: rest) = .exited c ∧ c ≠ 0) := by
  refine ⟨fun rest => rfl, rfl, fun e rest => ⟨1, rfl, one_ne_zero⟩⟩

/-- Claim C10: when discovery yields a non-empty EPP path list, startup
proceeds to construct the controller even when the derived governor path list
is empty, because the second emptiness check in main re-tests the EPP list
rather than the governor list. -/
theorem c10_empty_governor_list_not_fatal (epp_files : List FsPath)
    (fsExists : FsPath → Bool) (cfg : Config) (hne : epp_files ≠ [])
    (hgov : generate_cpu_core_gorvernor_paths epp_files fsExists = []) :
    mainStartup (.ok epp_files) fsExists (.ok cfg) =
      .proceed ⟨epp_files, cfg.epp, [], cfg.scaling_governor⟩ := by
  have hempty : epp_files.isEmpty = false := by
    cases epp_files with
    | nil => exact absurd rfl hne
    | cons a l => rfl
  simp [mainStartup, hempty, hgov]

/-- Witness for C10: one EPP file and a filesystem with no governor files at
all still reaches controller construction with an empty governor list. -/
theorem c10_empty_governor_list_not_fatal_witness :
    [eppPath0] ≠ ([] : List FsPath) ∧
    generate_cpu_core_gorvernor_paths [eppPath0] (fun _ => false) = [] ∧
    mainStartup (.ok [eppPath0]) (fun _ => false) (.ok scenarioConfig) =
      .proceed ⟨[eppPath0], scenarioConfig.epp, [],
        scenarioConfig.scaling_governor⟩ :=
  ⟨by decide, rfl,
    c10_empty_governor_list_not_fatal [eppPath0] (fun _ => false) scenarioConfig
      (by decide) rfl⟩

end PstateUpdate